import Mathlib

/-!
Verification of the LLM provider abstraction layer (`llm_provider.py`) of the
nl-query repository: the Anthropic message-folding adapter, the Ollama HTTP
adapter, the environment-driven provider factory `get_llm_provider`, and the
process-wide singleton accessor `get_provider`.

Python strings are modelled as Lean `String`; `os.getenv` results as
`Option String` (with `none` for an unset variable); a raised exception as
`Except.error`.
-/

namespace NLQuery

/-- A chat message, `{"role": ..., "content": ...}`. -/
structure Message where
  role : String
  content : String
deriving DecidableEq, Repr

/-- ASCII whitespace, the characters removed by Python `str.strip()`
(space, tab, newline, carriage return, vertical tab, form feed). -/
def isPySpace (c : Char) : Bool :=
  c = ' ' ∨ c = '\t' ∨ c = '\n' ∨ c = '\r' ∨ c = '\x0b' ∨ c = '\x0c'

/-- Python `str.strip()`: remove leading and trailing whitespace. -/
def pyStrip (s : String) : String :=
  String.mk (((s.data.reverse.dropWhile isPySpace).reverse).dropWhile isPySpace)

/-- Python `str.rstrip("/")`: remove trailing `/` characters. -/
def pyRstripSlash (s : String) : String :=
  String.mk ((s.data.reverse.dropWhile (fun c => c = '/')).reverse)

/-- Python `str.lower()` (ASCII letters, which covers every provider kind). -/
def strLower (s : String) : String :=
  String.mk (s.data.map Char.toLower)

/-- Python `x or d` for an optional string `x`: `d` when `x` is `None` or
empty, else the string itself. -/
def pyOr (x : Option String) (d : String) : String :=
  match x with
  | none => d
  | some s => if s = "" then d else s

/-- Python truthiness of an optional string: `False` for `None` and `""`. -/
def truthy (x : Option String) : Bool :=
  match x with
  | none => false
  | some s => s ≠ ""

/-! ## AnthropicProvider.chat: request translation -/

/-- The placeholder turn inserted by `AnthropicProvider.chat` when no
non-system message remains: `{"role": "user", "content": "Please respond."}`. -/
def placeholderTurn : Message :=
  { role := "user", content := "Please respond." }

/-- One iteration of the message loop in `AnthropicProvider.chat`: a system
message is appended (with a trailing newline) to the accumulated system
content, any other message is appended to the chat-message list. -/
def anthropicStep (acc : String × List Message) (msg : Message) : String × List Message :=
  if msg.role = "system" then (acc.1 ++ msg.content ++ "\n", acc.2)
  else (acc.1, acc.2 ++ [msg])

/-- The whole message loop of `AnthropicProvider.chat`: starting from an empty
system string and an empty chat-message list. -/
def anthropicExtract (messages : List Message) : String × List Message :=
  messages.foldl anthropicStep ("", [])

/-- The request sent by `AnthropicProvider.chat` to
`self.client.messages.create`: model, max_tokens, the optional top-level
system string, and the turn sequence. -/
structure AnthropicRequest where
  model : String
  maxTokens : Nat
  system : Option String
  messages : List Message
deriving DecidableEq, Repr

/-- `AnthropicProvider.chat`, up to the backend call: extract the system
content and the chat messages, substitute the placeholder turn when the
chat-message list is empty, send `system_content.strip()` as the system field
when `system_content` is truthy and nothing otherwise. -/
def anthropicChatRequest (model : String) (maxTokens : Nat) (messages : List Message) :
    AnthropicRequest :=
  let ex := anthropicExtract messages
  let systemContent := ex.1
  let chatMessages := if ex.2.isEmpty then [placeholderTurn] else ex.2
  { model := model
    maxTokens := maxTokens
    system := if systemContent ≠ "" then some (pyStrip systemContent) else none
    messages := chatMessages }

/-- The system contents of a message list, in order. -/
def systemContents (messages : List Message) : List String :=
  (messages.filter (fun m => m.role = "system")).map Message.content

/-- Newline-join of a list of strings. -/
def newlineJoin : List String → String
  | [] => ""
  | [c] => c
  | c :: c2 :: rest => c ++ "\n" ++ newlineJoin (c2 :: rest)

/-- Spec-side definition, from the spec's words: the preamble is the
newline-join of the contents of all system-role messages, in original order. -/
def specSystemJoin (messages : List Message) : String :=
  newlineJoin (systemContents messages)

/-- Concatenation of each string followed by a newline; the shape the system
accumulator of `AnthropicProvider.chat` takes. -/
def concatNl : List String → String
  | [] => ""
  | c :: rest => c ++ "\n" ++ concatNl rest

/-- Running form of the system accumulator over a message list. -/
def sysConcat : List Message → String
  | [] => ""
  | m :: rest => (if m.role = "system" then m.content ++ "\n" else "") ++ sysConcat rest

/-! ## OllamaProvider -/

/-- The `options` object of the Ollama request body. -/
structure OllamaOptions where
  numPredict : Nat
  temperature : Rat
deriving DecidableEq, Repr

/-- The single POST issued by `OllamaProvider.chat`: target URL and JSON body
`{model, messages, stream, options}`. -/
structure OllamaRequest where
  url : String
  model : String
  messages : List Message
  stream : Bool
  options : OllamaOptions
deriving DecidableEq, Repr

/-- The request `OllamaProvider.chat` builds: POST to `<base_url>/api/chat`
with body `{model, messages, stream: false,
options: {num_predict: max_tokens, temperature: temperature}}`. -/
def ollamaBuildRequest (model baseUrl : String) (messages : List Message)
    (maxTokens : Nat) (temperature : Rat) : OllamaRequest :=
  { url := baseUrl ++ "/api/chat"
    model := model
    messages := messages
    stream := false
    options := { numPredict := maxTokens, temperature := temperature } }

/-- An HTTP response as `OllamaProvider.chat` observes it: the status code and
the string at JSON path `message.content` of the body, when that path exists. -/
structure HttpResponse where
  status : Nat
  messageContent : Option String
deriving DecidableEq, Repr

/-- `requests.Response.raise_for_status` raises exactly for 4xx and 5xx. -/
def raiseForStatus (status : Nat) : Bool :=
  decide (400 ≤ status ∧ status < 600)

/-- The response handling of `OllamaProvider.chat`: `raise_for_status()`, then
`response.json()["message"]["content"].strip()` (a missing path raises). -/
def ollamaHandleResponse (resp : HttpResponse) : Except String String :=
  if raiseForStatus resp.status then
    Except.error ("HTTPError: status " ++ toString resp.status)
  else
    match resp.messageContent with
    | some c => Except.ok (pyStrip c)
    | none => Except.error "response JSON has no message.content"

/-- `OllamaProvider.chat` as a whole: the one request it issues and the result
it computes from the backend's response. -/
def ollamaChat (model baseUrl : String) (messages : List Message) (maxTokens : Nat)
    (temperature : Rat) (resp : HttpResponse) : OllamaRequest × Except String String :=
  (ollamaBuildRequest model baseUrl messages maxTokens temperature,
   ollamaHandleResponse resp)

/-! ## The provider factory `get_llm_provider` -/

/-- The environment variables the factory reads; `none` means unset. -/
structure Env where
  llmProvider : Option String
  llmModel : Option String
  llmBaseUrl : Option String
  openaiApiKey : Option String
  anthropicApiKey : Option String
deriving DecidableEq, Repr

/-- A constructed provider adapter with the identity each `__init__` stores. -/
inductive Provider where
  | openai (apiKey model : String) (baseUrl : Option String)
  | anthropic (apiKey model : String)
  | ollama (model baseUrl : String)
  | vllm (model baseUrl apiKey : String)
  | openaiCompatible (model baseUrl apiKey : String)
deriving DecidableEq, Repr

/-- `OllamaProvider.__init__`: stores the model and `base_url.rstrip("/")`. -/
def mkOllamaProvider (model baseUrl : String) : Provider :=
  Provider.ollama model (pyRstripSlash baseUrl)

/-- The provider kinds listed in the factory's unknown-provider message. -/
def supportedListed : List String :=
  ["openai", "anthropic", "ollama", "vllm", "openai-compatible"]

/-- The error message of the factory's final `else` branch. -/
def unknownProviderMsg (providerType : String) : String :=
  "Unknown LLM provider: " ++ providerType ++ ". " ++
    "Supported: openai, anthropic, ollama, vllm, openai-compatible"

/-- `get_llm_provider()`: reads `LLM_PROVIDER` (default `"openai"`, lowered),
`LLM_MODEL`, `LLM_BASE_URL` and the per-kind API keys, and either constructs
the matching adapter or raises a `ValueError`. -/
def getLlmProvider (env : Env) : Except String Provider :=
  let providerType := strLower (env.llmProvider.getD "openai")
  let model := env.llmModel
  let baseUrl := env.llmBaseUrl
  if providerType = "openai" then
    if truthy env.openaiApiKey = false then
      Except.error "OPENAI_API_KEY environment variable is required for OpenAI provider"
    else
      Except.ok (Provider.openai (env.openaiApiKey.getD "") (pyOr model "gpt-4o")
        (if truthy baseUrl then baseUrl else none))
  else if providerType = "anthropic" ∨ providerType = "claude" then
    if truthy env.anthropicApiKey = false then
      Except.error "ANTHROPIC_API_KEY environment variable is required for Anthropic provider"
    else
      Except.ok (Provider.anthropic (env.anthropicApiKey.getD "")
        (pyOr model "claude-sonnet-4-20250514"))
  else if providerType = "ollama" then
    Except.ok (mkOllamaProvider (pyOr model "llama3.1") (pyOr baseUrl "http://localhost:11434"))
  else if providerType = "vllm" then
    if truthy model = false then
      Except.error "LLM_MODEL environment variable is required for vLLM provider"
    else
      Except.ok (Provider.vllm (model.getD "") (pyOr baseUrl "http://localhost:8000/v1")
        (env.openaiApiKey.getD "EMPTY"))
  else if providerType = "openai-compatible" then
    if truthy model = false then
      Except.error "LLM_MODEL environment variable is required for OpenAI-compatible provider"
    else if truthy baseUrl = false then
      Except.error "LLM_BASE_URL environment variable is required for OpenAI-compatible provider"
    else
      Except.ok (Provider.openaiCompatible (model.getD "") (baseUrl.getD "")
        (env.openaiApiKey.getD "EMPTY"))
  else
    Except.error (unknownProviderMsg providerType)

/-! ## The singleton accessor `get_provider` -/

/-- The module-level state: the global `_provider` variable. -/
structure ProcState where
  provider : Option Provider
deriving DecidableEq, Repr

deriving instance DecidableEq for Except

/-- The outcome of one `get_provider()` call: the returned (or raised) value,
the state after the call, and how many times the factory ran during it. -/
structure CallResult where
  result : Except String Provider
  state : ProcState
  factoryCalls : Nat
deriving DecidableEq, Repr

/-- `get_provider()`: when `_provider` is set return it untouched (the
environment is not read); otherwise run the factory, store a successful
result, and propagate a failure leaving the state unchanged. -/
def getProvider (env : Env) (st : ProcState) : CallResult :=
  match st.provider with
  | some p => { result := Except.ok p, state := st, factoryCalls := 0 }
  | none =>
    match getLlmProvider env with
    | Except.ok p => { result := Except.ok p, state := ⟨some p⟩, factoryCalls := 1 }
    | Except.error e => { result := Except.error e, state := st, factoryCalls := 1 }

/-! ## String helper lemmas -/

theorem str_append_assoc (a b c : String) : (a ++ b) ++ c = a ++ (b ++ c) := by
  apply String.ext
  simp [String.data_append]

theorem str_append_empty (a : String) : a ++ "" = a := by
  apply String.ext
  simp [String.data_append]

theorem str_empty_append (a : String) : "" ++ a = a := by
  apply String.ext
  simp [String.data_append]

theorem pyStrip_append_newline (s : String) : pyStrip (s ++ "\n") = pyStrip s := by
  simp [pyStrip, String.data_append]
  have h : ("\n" : String).data = ['\n'] := rfl
  simp [h, isPySpace]

/-! ## Characterization of the Anthropic message loop -/

theorem anthropicExtract_go (messages : List Message) :
    ∀ (s : String) (l : List Message),
      messages.foldl anthropicStep (s, l) =
        (s ++ sysConcat messages, l ++ messages.filter (fun m => m.role ≠ "system")) := by
  induction messages with
  | nil => intro s l; simp [sysConcat, str_append_empty]
  | cons m rest ih =>
    intro s l
    by_cases h : m.role = "system"
    · simp [List.foldl_cons, anthropicStep, h, ih, sysConcat, str_append_assoc,
        List.filter_cons]
    · simp [List.foldl_cons, anthropicStep, h, ih, sysConcat, str_empty_append,
        List.filter_cons, List.append_assoc]

theorem anthropicExtract_eq (messages : List Message) :
    anthropicExtract messages =
      (sysConcat messages, messages.filter (fun m => m.role ≠ "system")) := by
  simp [anthropicExtract, anthropicExtract_go, str_empty_append]

theorem sysConcat_eq_concatNl (messages : List Message) :
    sysConcat messages = concatNl (systemContents messages) := by
  induction messages with
  | nil => rfl
  | cons m rest ih =>
    by_cases h : m.role = "system"
    · simp [sysConcat, systemContents, List.filter_cons, h, concatNl, ih, str_append_assoc]
    · simp [sysConcat, systemContents, List.filter_cons, h, ih, str_empty_append]

theorem concatNl_eq_newlineJoin (l : List String) (h : l ≠ []) :
    concatNl l = newlineJoin l ++ "\n" := by
  induction l with
  | nil => exact absurd rfl h
  | cons c rest ih =>
    cases rest with
    | nil => simp [concatNl, newlineJoin, str_append_empty]
    | cons c2 r2 =>
      rw [show concatNl (c :: c2 :: r2) = c ++ "\n" ++ concatNl (c2 :: r2) from rfl,
          ih (by simp),
          show newlineJoin (c :: c2 :: r2) = c ++ "\n" ++ newlineJoin (c2 :: r2) from rfl]
      simp [str_append_assoc]

theorem concatNl_ne_empty (l : List String) (h : l ≠ []) : concatNl l ≠ "" := by
  cases l with
  | nil => exact absurd rfl h
  | cons c rest =>
    intro hc
    have hd : (concatNl (c :: rest)).data = [] := by rw [hc]
    have hn : ("\n" : String).data = ['\n'] := rfl
    simp [concatNl, String.data_append, hn] at hd

theorem anthropicChatRequest_system (model : String) (maxTokens : Nat)
    (messages : List Message) :
    (anthropicChatRequest model maxTokens messages).system =
      if sysConcat messages ≠ "" then some (pyStrip (sysConcat messages)) else none := by
  simp [anthropicChatRequest, anthropicExtract_eq]

theorem anthropicChatRequest_messages (model : String) (maxTokens : Nat)
    (messages : List Message) :
    (anthropicChatRequest model maxTokens messages).messages =
      if (messages.filter (fun m => m.role ≠ "system")).isEmpty then [placeholderTurn]
      else messages.filter (fun m => m.role ≠ "system") := by
  simp [anthropicChatRequest, anthropicExtract_eq]

/-! ## Claim C1 -/

/-- C1, counterexample: for the single system message with content `"a "`,
the preamble actually sent is `some "a"` (the accumulated system string is
stripped), while the newline-join of the system contents is `"a "`; so the
preamble does not equal the plain newline-join. -/
theorem anthropic_preamble_plain_join_refuted :
    (anthropicChatRequest "claude-sonnet-4-20250514" 500
        [{ role := "system", content := "a " }]).system = some "a" ∧
    specSystemJoin [{ role := "system", content := "a " }] = "a " ∧
    (anthropicChatRequest "claude-sonnet-4-20250514" 500
        [{ role := "system", content := "a " }]).system ≠
      some (specSystemJoin [{ role := "system", content := "a " }]) := by
  exact ⟨by decide, by decide, by decide⟩

/-- C1, amended: for every input message sequence, the preamble the Anthropic
adapter sends is the newline-join of the contents of all system-role messages,
in their original order, with leading and trailing whitespace stripped; it is
absent when the input has no system message. -/
theorem anthropic_preamble_eq_trimmed_join (model : String) (maxTokens : Nat)
    (messages : List Message) :
    (anthropicChatRequest model maxTokens messages).system =
      if systemContents messages = [] then none
      else some (pyStrip (specSystemJoin messages)) := by
  rw [anthropicChatRequest_system]
  by_cases h : systemContents messages = []
  · simp [sysConcat_eq_concatNl, h, concatNl]
  · have h1 : concatNl (systemContents messages) ≠ "" := concatNl_ne_empty _ h
    have h2 : concatNl (systemContents messages) =
        newlineJoin (systemContents messages) ++ "\n" := concatNl_eq_newlineJoin _ h
    rw [sysConcat_eq_concatNl, if_pos h1, if_neg h, h2, pyStrip_append_newline, specSystemJoin]

/-! ## Claim C2 -/

/-- C2: for every input message sequence, the turn sequence the Anthropic
adapter sends is exactly the non-system messages in their original relative
order; when that filter leaves nothing, the single placeholder user turn
`placeholderTurn` is sent instead, so the turn sequence is never empty. -/
theorem anthropic_turns_eq_nonsystem (model : String) (maxTokens : Nat)
    (messages : List Message) :
    (anthropicChatRequest model maxTokens messages).messages =
      if messages.filter (fun m => m.role ≠ "system") = [] then [placeholderTurn]
      else messages.filter (fun m => m.role ≠ "system") := by
  rw [anthropicChatRequest_messages]
  by_cases h : messages.filter (fun m => m.role ≠ "system") = []
  · simp [h]
  · simp [h]

/-! ## Factory helper lemmas -/

theorem pyOr_of_not_truthy (x : Option String) (d : String) (h : truthy x = false) :
    pyOr x d = d := by
  cases x with
  | none => rfl
  | some s =>
    simp [truthy] at h
    simp [pyOr, h]

/-! ## Claim C3 -/

/-- C3, counterexample: `"claude"` is not among the kinds the unsupported-kind
message lists, yet the factory does not fail with the unsupported-kind error
for it: with no Anthropic key it fails with the missing-credential error, and
with a key it succeeds, constructing the Anthropic adapter. -/
theorem unsupported_kind_claim_refuted :
    "claude" ∉ supportedListed ∧
    getLlmProvider ⟨some "claude", none, none, none, none⟩ =
      Except.error "ANTHROPIC_API_KEY environment variable is required for Anthropic provider" ∧
    getLlmProvider ⟨some "claude", none, none, none, some "k"⟩ =
      Except.ok (Provider.anthropic "k" "claude-sonnet-4-20250514") := by
  exact ⟨by decide, by decide, by decide⟩

/-- C3, amended: for every provider-kind string whose lowercase is neither a
listed kind nor the undocumented alias `"claude"`, the factory fails — before
constructing any adapter, hence before any network call — with the
unsupported-provider error, whose message names the lowercased offending value
and lists the recognized kinds. -/
theorem unsupported_kind_errors (env : Env) (k : String) (h1 : env.llmProvider = some k)
    (h2 : strLower k ∉ "claude" :: supportedListed) :
    getLlmProvider env = Except.error (unknownProviderMsg (strLower k)) ∧
    unknownProviderMsg (strLower k) =
      "Unknown LLM provider: " ++ strLower k ++ ". " ++ "Supported: " ++
        String.intercalate ", " supportedListed := by
  simp [supportedListed, List.mem_cons] at h2
  obtain ⟨n1, n2, n3, n4, n5, n6⟩ := h2
  constructor
  · simp [getLlmProvider, h1, n1, n2, n3, n4, n5, n6]
  · have hic : String.intercalate ", " supportedListed =
        "openai, anthropic, ollama, vllm, openai-compatible" := by decide
    rw [hic, unknownProviderMsg]
    simp [str_append_assoc]

/-- Witness for `unsupported_kind_errors` at the kind `"Gemini"`. -/
theorem unsupported_kind_errors_witness :
    getLlmProvider ⟨some "Gemini", none, none, none, none⟩ =
      Except.error (unknownProviderMsg (strLower "Gemini")) ∧
    unknownProviderMsg (strLower "Gemini") =
      "Unknown LLM provider: " ++ strLower "Gemini" ++ ". " ++ "Supported: " ++
        String.intercalate ", " supportedListed :=
  unsupported_kind_errors ⟨some "Gemini", none, none, none, none⟩ "Gemini" rfl (by decide)

/-! ## Claim C4 -/

/-- C4: for the hosted-API kinds, an absent kind-specific credential makes the
factory fail with the error naming exactly the required variable
(`OPENAI_API_KEY` for openai, `ANTHROPIC_API_KEY` for anthropic); no other
kind's adapter is constructed. -/
theorem missing_credential_errors (env : Env) :
    (strLower (env.llmProvider.getD "openai") = "openai" → env.openaiApiKey = none →
      getLlmProvider env =
        Except.error "OPENAI_API_KEY environment variable is required for OpenAI provider") ∧
    (strLower (env.llmProvider.getD "openai") = "anthropic" → env.anthropicApiKey = none →
      getLlmProvider env =
        Except.error "ANTHROPIC_API_KEY environment variable is required for Anthropic provider") := by
  constructor
  · intro h hk
    simp [getLlmProvider, h, hk, truthy]
  · intro h hk
    simp [getLlmProvider, h, hk, truthy]

/-- Witness for `missing_credential_errors` on concrete environments. -/
theorem missing_credential_errors_witness :
    getLlmProvider ⟨some "openai", none, none, none, none⟩ =
      Except.error "OPENAI_API_KEY environment variable is required for OpenAI provider" ∧
    getLlmProvider ⟨some "anthropic", none, none, none, none⟩ =
      Except.error "ANTHROPIC_API_KEY environment variable is required for Anthropic provider" :=
  ⟨(missing_credential_errors ⟨some "openai", none, none, none, none⟩).1 (by decide) rfl,
   (missing_credential_errors ⟨some "anthropic", none, none, none, none⟩).2 (by decide) rfl⟩

/-! ## Claim C5 -/

/-- C5: the gateway kinds fail with a field-naming error, before constructing
any adapter (hence before any network attempt), when vllm has no model, when
openai-compatible has no model, and when openai-compatible has a model but no
base URL; while vllm with a model and no base URL succeeds with the default
local endpoint `http://localhost:8000/v1`. -/
theorem gateway_missing_field_errors (env : Env) :
    (strLower (env.llmProvider.getD "openai") = "vllm" → truthy env.llmModel = false →
      getLlmProvider env =
        Except.error "LLM_MODEL environment variable is required for vLLM provider") ∧
    (strLower (env.llmProvider.getD "openai") = "openai-compatible" →
      truthy env.llmModel = false →
      getLlmProvider env =
        Except.error "LLM_MODEL environment variable is required for OpenAI-compatible provider") ∧
    (strLower (env.llmProvider.getD "openai") = "openai-compatible" →
      truthy env.llmModel = true → truthy env.llmBaseUrl = false →
      getLlmProvider env =
        Except.error "LLM_BASE_URL environment variable is required for OpenAI-compatible provider") ∧
    (strLower (env.llmProvider.getD "openai") = "vllm" → truthy env.llmModel = true →
      truthy env.llmBaseUrl = false →
      getLlmProvider env = Except.ok (Provider.vllm (env.llmModel.getD "")
        "http://localhost:8000/v1" (env.openaiApiKey.getD "EMPTY"))) := by
  refine ⟨?_, ?_, ?_, ?_⟩
  · intro h hm
    simp [getLlmProvider, h, hm]
  · intro h hm
    simp [getLlmProvider, h, hm]
  · intro h hm hb
    simp [getLlmProvider, h, hm, hb]
  · intro h hm hb
    simp [getLlmProvider, h, hm, pyOr_of_not_truthy _ _ hb]

/-- Witness for `gateway_missing_field_errors` on concrete environments. -/
theorem gateway_missing_field_errors_witness :
    getLlmProvider ⟨some "vllm", none, none, none, none⟩ =
      Except.error "LLM_MODEL environment variable is required for vLLM provider" ∧
    getLlmProvider ⟨some "openai-compatible", none, none, none, none⟩ =
      Except.error "LLM_MODEL environment variable is required for OpenAI-compatible provider" ∧
    getLlmProvider ⟨some "openai-compatible", some "m", none, none, none⟩ =
      Except.error "LLM_BASE_URL environment variable is required for OpenAI-compatible provider" ∧
    getLlmProvider ⟨some "vllm", some "m", none, none, none⟩ =
      Except.ok (Provider.vllm "m" "http://localhost:8000/v1" "EMPTY") :=
  ⟨(gateway_missing_field_errors ⟨some "vllm", none, none, none, none⟩).1 (by decide) rfl,
   (gateway_missing_field_errors ⟨some "openai-compatible", none, none, none, none⟩).2.1 (by decide) rfl,
   (gateway_missing_field_errors ⟨some "openai-compatible", some "m", none, none, none⟩).2.2.1 (by decide) (by decide) rfl,
   (gateway_missing_field_errors ⟨some "vllm", some "m", none, none, none⟩).2.2.2 (by decide) (by decide) rfl⟩

/-! ## Claim C6 -/

/-- C6: for the kind ollama the factory never fails: it returns an Ollama
adapter whose model defaults to `llama3.1` when no model is configured and
whose endpoint defaults to `http://localhost:11434` when no base URL is
configured; no credential is consulted. -/
theorem ollama_defaults_never_fail (env : Env)
    (h : strLower (env.llmProvider.getD "openai") = "ollama") :
    ∃ m b, getLlmProvider env = Except.ok (Provider.ollama m b) ∧
      (env.llmModel = none → m = "llama3.1") ∧
      (env.llmBaseUrl = none → b = "http://localhost:11434") := by
  refine ⟨pyOr env.llmModel "llama3.1",
    pyRstripSlash (pyOr env.llmBaseUrl "http://localhost:11434"), ?_, ?_, ?_⟩
  · simp [getLlmProvider, h, mkOllamaProvider]
  · intro hm
    simp [pyOr, hm]
  · intro hb
    simp [pyOr, hb]
    decide

/-- Witness for `ollama_defaults_never_fail` with every optional unset. -/
theorem ollama_defaults_never_fail_witness :
    getLlmProvider ⟨some "ollama", none, none, none, none⟩ =
      Except.ok (Provider.ollama "llama3.1" "http://localhost:11434") := by
  obtain ⟨m, b, hok, hm, hb⟩ := ollama_defaults_never_fail ⟨some "ollama", none, none, none, none⟩ (by decide)
  rw [hm rfl, hb rfl] at hok
  exact hok

/-! ## Claim C7 -/

/-- C7: when the factory succeeds, the first `get_provider()` call from the
fresh state runs the factory once and caches the instance; and any call made
with a cached instance returns that identical instance, leaves the state
untouched, and runs the factory zero times — regardless of the environment,
which it does not re-read. -/
theorem singleton_caches_instance (env : Env) (p : Provider)
    (h : getLlmProvider env = Except.ok p) :
    getProvider env ⟨none⟩ =
      { result := Except.ok p, state := ⟨some p⟩, factoryCalls := 1 } ∧
    ∀ (env2 : Env) (st : ProcState) (q : Provider), st.provider = some q →
      getProvider env2 st = { result := Except.ok q, state := st, factoryCalls := 0 } := by
  constructor
  · simp [getProvider, h]
  · intro env2 st q hq
    simp [getProvider, hq]

/-- Witness for `singleton_caches_instance` on the default ollama provider. -/
theorem singleton_caches_instance_witness :
    getProvider ⟨some "ollama", none, none, none, none⟩ ⟨none⟩ =
      { result := Except.ok (Provider.ollama "llama3.1" "http://localhost:11434"),
        state := ⟨some (Provider.ollama "llama3.1" "http://localhost:11434")⟩,
        factoryCalls := 1 } ∧
    getProvider ⟨some "ollama", none, none, none, none⟩
      ⟨some (Provider.ollama "llama3.1" "http://localhost:11434")⟩ =
      { result := Except.ok (Provider.ollama "llama3.1" "http://localhost:11434"),
        state := ⟨some (Provider.ollama "llama3.1" "http://localhost:11434")⟩,
        factoryCalls := 0 } := by
  have h := singleton_caches_instance ⟨some "ollama", none, none, none, none⟩
    (Provider.ollama "llama3.1" "http://localhost:11434") (by decide)
  exact ⟨h.1, h.2 _ _ _ rfl⟩

/-! ## Claim C8 -/

/-- C8, counterexample: the status 300 is not 2xx, yet with a well-formed body
the Ollama response handling returns the content instead of failing, because
`raise_for_status` rejects only 4xx and 5xx. -/
theorem ollama_non2xx_claim_refuted :
    ¬ (200 ≤ 300 ∧ 300 < 300) ∧
    ollamaHandleResponse { status := 300, messageContent := some "hello" } =
      Except.ok "hello" := by
  exact ⟨by decide, by decide⟩

/-- C8, amended: `OllamaProvider.chat` issues exactly the POST request
`<base_url>/api/chat` with body `{model, messages, stream: false,
options: {num_predict, temperature}}`; on a 2xx response it returns the string
at `message.content` trimmed; any 4xx or 5xx status is a hard failure (an
error, never text). -/
theorem ollama_request_shape_and_status (model baseUrl : String) (messages : List Message)
    (maxTokens : Nat) (temperature : Rat) (resp : HttpResponse) :
    (ollamaChat model baseUrl messages maxTokens temperature resp).1 =
      { url := baseUrl ++ "/api/chat", model := model, messages := messages, stream := false,
        options := { numPredict := maxTokens, temperature := temperature } } ∧
    (200 ≤ resp.status ∧ resp.status < 300 → ∀ c, resp.messageContent = some c →
      (ollamaChat model baseUrl messages maxTokens temperature resp).2 =
        Except.ok (pyStrip c)) ∧
    (400 ≤ resp.status ∧ resp.status < 600 →
      ((ollamaChat model baseUrl messages maxTokens temperature resp).2).isOk = false) := by
  refine ⟨rfl, ?_, ?_⟩
  · rintro ⟨hl, hu⟩ c hc
    have hr : raiseForStatus resp.status = false := by
      simp [raiseForStatus]
      omega
    simp [ollamaChat, ollamaHandleResponse, hr, hc]
  · intro h
    have hr : raiseForStatus resp.status = true := by
      simp [raiseForStatus]
      omega
    simp [ollamaChat, ollamaHandleResponse, hr, Except.isOk, Except.toBool]

/-- Witness for `ollama_request_shape_and_status` at a 200 and a 404 response. -/
theorem ollama_request_shape_and_status_witness :
    (ollamaChat "llama3.1" "http://localhost:11434" [] 500 (7 / 10)
        { status := 200, messageContent := some " hi " }).2 = Except.ok (pyStrip " hi ") ∧
    ((ollamaChat "llama3.1" "http://localhost:11434" [] 500 (7 / 10)
        { status := 404, messageContent := none }).2).isOk = false :=
  ⟨(ollama_request_shape_and_status "llama3.1" "http://localhost:11434" [] 500 (7 / 10)
      { status := 200, messageContent := some " hi " }).2.1 (by decide) " hi " rfl,
   (ollama_request_shape_and_status "llama3.1" "http://localhost:11434" [] 500 (7 / 10)
      { status := 404, messageContent := none }).2.2 (by decide)⟩

/-! ## Claim C9 -/

/-- C9, counterexample: with the provider-kind selector absent and only an
OpenAI key present, the factory succeeds with the OpenAI adapter — it does not
fail with a configuration error. -/
theorem missing_selector_claim_refuted :
    getLlmProvider ⟨none, none, none, some "k", none⟩ =
      Except.ok (Provider.openai "k" "gpt-4o" none) := by
  decide

/-- C9, amended: the provider kind selector is not required: when it is
absent the factory behaves exactly as if it were `"openai"`, proceeding with
the default openai adapter variant (subject to that kind's own credential
check) instead of failing. -/
theorem missing_selector_defaults_openai (env : Env) (h : env.llmProvider = none) :
    getLlmProvider env = getLlmProvider { env with llmProvider := some "openai" } := by
  cases env with
  | mk a b c d e =>
    cases h
    rfl

/-- Witness for `missing_selector_defaults_openai`. -/
theorem missing_selector_defaults_openai_witness :
    getLlmProvider ⟨none, none, none, some "k", none⟩ =
      getLlmProvider ⟨some "openai", none, none, some "k", none⟩ :=
  missing_selector_defaults_openai ⟨none, none, none, some "k", none⟩ rfl

/-! ## Claim C10 -/

/-- C10: every kind string lowering to `"claude"` is accepted as an alias of
anthropic — the factory behaves identically to the kind `"anthropic"` — even
though `"claude"` is not among the kinds the unsupported-kind error message
lists (that message is exactly the listed set rendered after the prefix). -/
theorem claude_alias_builds_anthropic (env : Env) (k : String)
    (h1 : env.llmProvider = some k) (h2 : strLower k = "claude") :
    getLlmProvider env = getLlmProvider { env with llmProvider := some "anthropic" } ∧
    "claude" ∉ supportedListed ∧
    unknownProviderMsg (strLower k) =
      "Unknown LLM provider: claude. " ++ "Supported: " ++
        String.intercalate ", " supportedListed := by
  refine ⟨?_, by decide, ?_⟩
  · cases env with
    | mk a b c d e =>
      cases h1
      have ha : strLower "anthropic" = "anthropic" := by decide
      simp [getLlmProvider, h2, ha]
  · rw [unknownProviderMsg, h2]
    decide

/-- Witness for `claude_alias_builds_anthropic` at the kind `"Claude"`. -/
theorem claude_alias_builds_anthropic_witness :
    getLlmProvider ⟨some "Claude", none, none, none, some "k"⟩ =
      getLlmProvider ⟨some "anthropic", none, none, none, some "k"⟩ ∧
    "claude" ∉ supportedListed ∧
    unknownProviderMsg (strLower "Claude") =
      "Unknown LLM provider: claude. " ++ "Supported: " ++
        String.intercalate ", " supportedListed :=
  claude_alias_builds_anthropic ⟨some "Claude", none, none, none, some "k"⟩ "Claude"
    rfl (by decide)

end NLQuery
